import Mathlib

/-!
Shallow embedding of the SoroScan core contract
(src/soroban-contracts/soroscan_core/src/lib.rs) and proofs about it.

Modelling conventions:
- `Address` (Soroban `Address`) is an opaque identity, embedded as `Nat`.
- `Symbol` is embedded as `String`; the three reserved storage keys are the
  string constants from the source (`ADMIN_KEY`, `INDEXERS_KEY`, `COUNTER_KEY`).
- `BytesN<32>` payload hashes are opaque data, embedded as `Nat`.
- Soroban instance storage is a single key-value space addressed by `Symbol`
  keys; it is embedded as an association list from `Symbol` to a sum `Val` of
  the value shapes this contract stores (`Address`, `Map<Address, bool>`,
  `u64`, `EventRecord`).  A typed read (`env.storage().instance().get::<V>`)
  returns `none` for an absent key and panics (a host trap) when the stored
  value does not convert to `V`; the trap is modelled by the `Outcome.trap`
  constructor.  In every contract function of the source, all typed reads and
  error returns happen before the first write, so an invocation that errors or
  traps leaves the state unchanged, which the embedding returns explicitly.
- `require_auth` is the external authorization oracle; all claims quantify
  over invocations that are authorized by the claimed identity, so the oracle
  is assumed to succeed and is not represented.
- `env.ledger().sequence()` and `env.ledger().timestamp()` are inputs supplied
  by the environment, passed as explicit arguments to `record_event`.
- `env.events().publish` appends a `Broadcast` to the event log of the state.
- `u64` counters are embedded as `Nat` with explicit saturation at
  `2 ^ 64 - 1`, matching `u64::saturating_add`.
-/

namespace SoroScan

abbrev Address := Nat
abbrev Symbol := String
abbrev PayloadHash := Nat

/-- `EventRecord` struct from the source: a recorded event from an indexed
contract. -/
structure EventRecord where
  contract_id : Address
  event_type : Symbol
  payload_hash : PayloadHash
  ledger : Nat
  timestamp : Nat
deriving DecidableEq, Repr

/-- `ContractError` enum from the source. -/
inductive ContractError where
  | Unauthorized
  | IndexerNotFound
  | AlreadyInitialized
  | NotInitialized
deriving DecidableEq, Repr

/-- The shapes of values this contract ever writes to instance storage. -/
inductive Val where
  | addr (a : Address)
  | idxMap (m : List (Address × Bool))
  | counter (n : Nat)
  | record (r : EventRecord)
deriving DecidableEq, Repr

/-- Lookup in an association list (first match wins; Soroban maps keep keys
unique, so extensionally this is map lookup). -/
def alistGet {κ ν : Type} [DecidableEq κ] : List (κ × ν) → κ → Option ν
  | [], _ => none
  | (k1, v1) :: rest, k => if k1 = k then some v1 else alistGet rest k

/-- Insert-or-replace in an association list (Soroban `Map::set` and instance
storage `set`). -/
def alistSet {κ ν : Type} [DecidableEq κ] : List (κ × ν) → κ → ν → List (κ × ν)
  | [], k, v => [(k, v)]
  | (k1, v1) :: rest, k, v =>
    if k1 = k then (k, v) :: rest else (k1, v1) :: alistSet rest k v

/-- Delete a key from an association list (Soroban `Map::remove`). -/
def alistRemove {κ ν : Type} [DecidableEq κ] : List (κ × ν) → κ → List (κ × ν)
  | [], _ => []
  | (k1, v1) :: rest, k =>
    if k1 = k then alistRemove rest k else (k1, v1) :: alistRemove rest k

/-- Soroban instance storage: one flat key space addressed by `Symbol`. -/
structure Storage where
  slots : List (Symbol × Val)
deriving DecidableEq, Repr

def Storage.get (s : Storage) (k : Symbol) : Option Val := alistGet s.slots k

def Storage.set (s : Storage) (k : Symbol) (v : Val) : Storage :=
  ⟨alistSet s.slots k v⟩

def Storage.has (s : Storage) (k : Symbol) : Bool := (s.get k).isSome

/-- Typed read at `Address` (`get::<_, Address>`): `some none` when the key is
absent, `some (some a)` when it holds an address, `none` for the conversion
panic (trap) on any other stored shape. -/
def Storage.getAddr (s : Storage) (k : Symbol) : Option (Option Address) :=
  match s.get k with
  | none => some none
  | some (Val.addr a) => some (some a)
  | some _ => none

/-- Typed read at `Map<Address, bool>`; same conventions as `Storage.getAddr`. -/
def Storage.getIdxMap (s : Storage) (k : Symbol) :
    Option (Option (List (Address × Bool))) :=
  match s.get k with
  | none => some none
  | some (Val.idxMap m) => some (some m)
  | some _ => none

/-- Typed read at `u64`; same conventions as `Storage.getAddr`. -/
def Storage.getCounter (s : Storage) (k : Symbol) : Option (Option Nat) :=
  match s.get k with
  | none => some none
  | some (Val.counter n) => some (some n)
  | some _ => none

/-- Typed read at `EventRecord`; same conventions as `Storage.getAddr`. -/
def Storage.getRecord (s : Storage) (k : Symbol) : Option (Option EventRecord) :=
  match s.get k with
  | none => some none
  | some (Val.record r) => some (some r)
  | some _ => none

/-- `ADMIN_KEY` constant from the source. -/
def ADMIN_KEY : Symbol := "admin"

/-- `INDEXERS_KEY` constant from the source. -/
def INDEXERS_KEY : Symbol := "idxrs"

/-- `COUNTER_KEY` constant from the source. -/
def COUNTER_KEY : Symbol := "count"

/-- The broadcast notifications published via `env.events().publish`. -/
inductive Broadcast where
  | indexerAdd (indexer : Address)
  | indexerRem (indexer : Address)
  | soroscanEvent (event_type : Symbol) (r : EventRecord)
deriving DecidableEq, Repr

/-- Contract state: instance storage plus the log of published broadcasts. -/
structure State where
  storage : Storage
  events : List Broadcast
deriving DecidableEq, Repr

/-- Result of one invocation: a value, a `ContractError`, or a host trap
(conversion panic). -/
inductive Outcome (α : Type) where
  | ok (a : α)
  | err (e : ContractError)
  | trap
deriving DecidableEq, Repr

def U64_MAX : Nat := 2 ^ 64 - 1

/-- `u64::saturating_add(1)` on counters embedded as `Nat`. -/
def saturatingAdd1 (n : Nat) : Nat := if n < U64_MAX then n + 1 else U64_MAX

/-- `SoroScanCore::init`. -/
def init (st : State) (admin : Address) : Outcome Unit × State :=
  if st.storage.has ADMIN_KEY then
    (Outcome.err ContractError.AlreadyInitialized, st)
  else
    let storage1 := st.storage.set ADMIN_KEY (Val.addr admin)
    let storage2 := storage1.set INDEXERS_KEY (Val.idxMap [])
    let storage3 := storage2.set COUNTER_KEY (Val.counter 0)
    (Outcome.ok (), { storage := storage3, events := st.events })

/-- `SoroScanCore::add_indexer`. -/
def add_indexer (st : State) (admin indexer : Address) : Outcome Unit × State :=
  match st.storage.getAddr ADMIN_KEY with
  | none => (Outcome.trap, st)
  | some none => (Outcome.err ContractError.NotInitialized, st)
  | some (some stored_admin) =>
    if admin ≠ stored_admin then (Outcome.err ContractError.Unauthorized, st)
    else
      match st.storage.getIdxMap INDEXERS_KEY with
      | none => (Outcome.trap, st)
      | some none => (Outcome.err ContractError.NotInitialized, st)
      | some (some indexers) =>
        let indexers2 := alistSet indexers indexer true
        (Outcome.ok (),
         { storage := st.storage.set INDEXERS_KEY (Val.idxMap indexers2),
           events := st.events ++ [Broadcast.indexerAdd indexer] })

/-- `SoroScanCore::remove_indexer`. -/
def remove_indexer (st : State) (admin indexer : Address) :
    Outcome Unit × State :=
  match st.storage.getAddr ADMIN_KEY with
  | none => (Outcome.trap, st)
  | some none => (Outcome.err ContractError.NotInitialized, st)
  | some (some stored_admin) =>
    if admin ≠ stored_admin then (Outcome.err ContractError.Unauthorized, st)
    else
      match st.storage.getIdxMap INDEXERS_KEY with
      | none => (Outcome.trap, st)
      | some none => (Outcome.err ContractError.NotInitialized, st)
      | some (some indexers) =>
        let indexers2 := alistRemove indexers indexer
        (Outcome.ok (),
         { storage := st.storage.set INDEXERS_KEY (Val.idxMap indexers2),
           events := st.events ++ [Broadcast.indexerRem indexer] })

/-- `SoroScanCore::record_event`.  The ledger sequence and timestamp are the
values `env.ledger()` returns for this invocation, passed as arguments. -/
def record_event (st : State) (indexer contract_id : Address)
    (event_type : Symbol) (payload_hash : PayloadHash)
    (ledger timestamp : Nat) : Outcome Nat × State :=
  match st.storage.getIdxMap INDEXERS_KEY with
  | none => (Outcome.trap, st)
  | some none => (Outcome.err ContractError.NotInitialized, st)
  | some (some indexers) =>
    let is_allowed := (alistGet indexers indexer).getD false
    if !is_allowed then (Outcome.err ContractError.IndexerNotFound, st)
    else
      let record : EventRecord :=
        { contract_id := contract_id, event_type := event_type,
          payload_hash := payload_hash, ledger := ledger,
          timestamp := timestamp }
      match st.storage.getCounter COUNTER_KEY with
      | none => (Outcome.trap, st)
      | some stored =>
        let count := saturatingAdd1 (stored.getD 0)
        let storage1 := st.storage.set COUNTER_KEY (Val.counter count)
        let storage2 := storage1.set event_type (Val.record record)
        (Outcome.ok count,
         { storage := storage2,
           events := st.events ++ [Broadcast.soroscanEvent event_type record] })

/-- `SoroScanCore::latest_by_type` (pure read, no state change). -/
def latest_by_type (st : State) (event_type : Symbol) :
    Outcome (Option EventRecord) :=
  match st.storage.getRecord event_type with
  | none => Outcome.trap
  | some r => Outcome.ok r

/-- `SoroScanCore::total_events` (pure read, no state change). -/
def total_events (st : State) : Outcome Nat :=
  match st.storage.getCounter COUNTER_KEY with
  | none => Outcome.trap
  | some stored => Outcome.ok (stored.getD 0)

/-- `SoroScanCore::is_indexer` (pure read, no state change). -/
def is_indexer (st : State) (indexer : Address) : Outcome Bool :=
  match st.storage.getIdxMap INDEXERS_KEY with
  | none => Outcome.trap
  | some none => Outcome.ok false
  | some (some m) => Outcome.ok ((alistGet m indexer).getD false)

/-- `SoroScanCore::get_admin` (pure read, no state change). -/
def get_admin (st : State) : Outcome (Option Address) :=
  match st.storage.getAddr ADMIN_KEY with
  | none => Outcome.trap
  | some a => Outcome.ok a

/-! ### Association-list and storage lemmas -/

theorem alistGet_alistSet_self {κ ν : Type} [DecidableEq κ]
    (l : List (κ × ν)) (k : κ) (v : ν) : alistGet (alistSet l k v) k = some v := by
  induction l with
  | nil => simp [alistGet, alistSet]
  | cons hd tl ih =>
    obtain ⟨k1, v1⟩ := hd
    by_cases h : k1 = k
    · simp [alistGet, alistSet, h]
    · simp [alistGet, alistSet, h, ih]

theorem alistGet_alistSet_ne {κ ν : Type} [DecidableEq κ]
    (l : List (κ × ν)) (k k2 : κ) (v : ν) (h : k ≠ k2) :
    alistGet (alistSet l k v) k2 = alistGet l k2 := by
  induction l with
  | nil => simp [alistGet, alistSet, h]
  | cons hd tl ih =>
    obtain ⟨k1, v1⟩ := hd
    by_cases h1 : k1 = k
    · subst h1
      simp [alistGet, alistSet, h]
    · simp [alistGet, alistSet, h1, ih]

theorem alistSet_eq_of_get_some {κ ν : Type} [DecidableEq κ]
    (l : List (κ × ν)) (k : κ) (v : ν) (h : alistGet l k = some v) :
    alistSet l k v = l := by
  induction l with
  | nil => simp [alistGet] at h
  | cons hd tl ih =>
    obtain ⟨k1, v1⟩ := hd
    by_cases h1 : k1 = k
    · subst h1
      simp [alistGet] at h
      simp [alistSet, h]
    · simp [alistGet, h1] at h
      simp [alistSet, h1, ih h]

theorem alistRemove_eq_of_get_none {κ ν : Type} [DecidableEq κ]
    (l : List (κ × ν)) (k : κ) (h : alistGet l k = none) :
    alistRemove l k = l := by
  induction l with
  | nil => simp [alistRemove]
  | cons hd tl ih =>
    obtain ⟨k1, v1⟩ := hd
    by_cases h1 : k1 = k
    · simp [alistGet, h1] at h
    · simp [alistGet, h1] at h
      simp [alistRemove, h1, ih h]

theorem Storage.get_set_self (s : Storage) (k : Symbol) (v : Val) :
    (s.set k v).get k = some v := by
  simp [Storage.get, Storage.set, alistGet_alistSet_self]

theorem Storage.get_set_ne (s : Storage) (k k2 : Symbol) (v : Val)
    (h : k ≠ k2) : (s.set k v).get k2 = s.get k2 := by
  simp [Storage.get, Storage.set, alistGet_alistSet_ne _ _ _ _ h]

theorem Storage.set_eq_of_get_some (s : Storage) (k : Symbol) (v : Val)
    (h : s.get k = some v) : s.set k v = s := by
  simp [Storage.get] at h
  simp [Storage.set, alistSet_eq_of_get_some _ _ _ h]

theorem Storage.get_of_getIdxMap (s : Storage) (k : Symbol)
    (m : List (Address × Bool)) (h : s.getIdxMap k = some (some m)) :
    s.get k = some (Val.idxMap m) := by
  unfold Storage.getIdxMap at h
  cases hg : s.get k with
  | none => simp [hg] at h
  | some v =>
    cases v <;> simp [hg] at h
    simp [h]

theorem Storage.getAddr_eq (s : Storage) (k : Symbol) (a : Address)
    (h : s.get k = some (Val.addr a)) : s.getAddr k = some (some a) := by
  simp [Storage.getAddr, h]

theorem Storage.getIdxMap_eq (s : Storage) (k : Symbol)
    (m : List (Address × Bool)) (h : s.get k = some (Val.idxMap m)) :
    s.getIdxMap k = some (some m) := by
  simp [Storage.getIdxMap, h]

theorem Storage.getCounter_eq (s : Storage) (k : Symbol) (n : Nat)
    (h : s.get k = some (Val.counter n)) : s.getCounter k = some (some n) := by
  simp [Storage.getCounter, h]

/-- Success path of `add_indexer`, read off the source: set membership to
`true`, write the map back, publish the addition. -/
theorem add_indexer_success (st : State) (a i : Address)
    (m : List (Address × Bool))
    (hadmin : st.storage.getAddr ADMIN_KEY = some (some a))
    (hmap : st.storage.getIdxMap INDEXERS_KEY = some (some m)) :
    add_indexer st a i = (Outcome.ok (),
      ⟨st.storage.set INDEXERS_KEY (Val.idxMap (alistSet m i true)),
       st.events ++ [Broadcast.indexerAdd i]⟩) := by
  simp [add_indexer, hadmin, hmap]

/-- Success path of `remove_indexer`, read off the source: delete the entry,
write the map back, publish the removal. -/
theorem remove_indexer_success (st : State) (a i : Address)
    (m : List (Address × Bool))
    (hadmin : st.storage.getAddr ADMIN_KEY = some (some a))
    (hmap : st.storage.getIdxMap INDEXERS_KEY = some (some m)) :
    remove_indexer st a i = (Outcome.ok (),
      ⟨st.storage.set INDEXERS_KEY (Val.idxMap (alistRemove m i)),
       st.events ++ [Broadcast.indexerRem i]⟩) := by
  simp [remove_indexer, hadmin, hmap]

/-- `is_indexer` is membership lookup with default `false`. -/
theorem is_indexer_eq (st : State) (i : Address) (m : List (Address × Bool))
    (hmap : st.storage.getIdxMap INDEXERS_KEY = some (some m)) :
    is_indexer st i = Outcome.ok ((alistGet m i).getD false) := by
  simp [is_indexer, hmap]

/-! ### Claim theorems -/

/-- C4: record_event authorization gate.  For every identity that is not a
current member of the indexer set (absent from the map or mapped to `false`),
`record_event` by that identity fails with `IndexerNotFound` and returns the
state unchanged, so the counter, every category slot, and the indexer set are
untouched. -/
theorem record_event_not_member_fails_no_mutation
    (st : State) (indexer contract_id : Address) (event_type : Symbol)
    (payload_hash : PayloadHash) (ledger timestamp : Nat)
    (m : List (Address × Bool))
    (hmap : st.storage.getIdxMap INDEXERS_KEY = some (some m))
    (hmem : (alistGet m indexer).getD false = false) :
    record_event st indexer contract_id event_type payload_hash ledger timestamp
      = (Outcome.err ContractError.IndexerNotFound, st) := by
  simp [record_event, hmap, hmem]

/-- C4 witness at a concrete state. -/
theorem record_event_not_member_fails_no_mutation_witness :
    record_event ⟨⟨[(ADMIN_KEY, Val.addr 0), (INDEXERS_KEY, Val.idxMap [(3, false)]),
        (COUNTER_KEY, Val.counter 0)]⟩, []⟩ 3 2 "swap" 9 5 7
      = (Outcome.err ContractError.IndexerNotFound,
         ⟨⟨[(ADMIN_KEY, Val.addr 0), (INDEXERS_KEY, Val.idxMap [(3, false)]),
            (COUNTER_KEY, Val.counter 0)]⟩, []⟩) :=
  record_event_not_member_fails_no_mutation _ 3 2 "swap" 9 5 7 [(3, false)]
    (by decide) (by decide)

/-- C5: only the stored admin may mutate the indexer set.  For every caller
identity different from the stored admin, `add_indexer` and `remove_indexer`
fail with `Unauthorized` and return the state exactly as before the call. -/
theorem indexer_mutation_requires_admin
    (st : State) (admin indexer stored_admin : Address)
    (hadmin : st.storage.getAddr ADMIN_KEY = some (some stored_admin))
    (hne : admin ≠ stored_admin) :
    add_indexer st admin indexer = (Outcome.err ContractError.Unauthorized, st) ∧
    remove_indexer st admin indexer = (Outcome.err ContractError.Unauthorized, st) := by
  constructor
  · simp [add_indexer, hadmin, hne]
  · simp [remove_indexer, hadmin, hne]

/-- C5 witness at a concrete state. -/
theorem indexer_mutation_requires_admin_witness :
    add_indexer ⟨⟨[(ADMIN_KEY, Val.addr 0), (INDEXERS_KEY, Val.idxMap []),
        (COUNTER_KEY, Val.counter 0)]⟩, []⟩ 4 5
      = (Outcome.err ContractError.Unauthorized,
         ⟨⟨[(ADMIN_KEY, Val.addr 0), (INDEXERS_KEY, Val.idxMap []),
            (COUNTER_KEY, Val.counter 0)]⟩, []⟩) :=
  (indexer_mutation_requires_admin _ 4 5 0 (by decide) (by decide)).1

/-- C6: one-shot initialization.  After a successful `init st a`, a second
`init` with any identity fails with `AlreadyInitialized`, leaves the state
unchanged, and `get_admin` still returns `a`. -/
theorem init_one_shot (st : State) (a b : Address)
    (h : (init st a).1 = Outcome.ok ()) :
    (init (init st a).2 b).1 = Outcome.err ContractError.AlreadyInitialized ∧
    (init (init st a).2 b).2 = (init st a).2 ∧
    get_admin (init st a).2 = Outcome.ok (some a) := by
  cases hb : st.storage.has ADMIN_KEY with
  | true => simp [init, hb] at h
  | false =>
    have hget : ((((st.storage.set ADMIN_KEY (Val.addr a)).set INDEXERS_KEY
        (Val.idxMap [])).set COUNTER_KEY (Val.counter 0))).get ADMIN_KEY
        = some (Val.addr a) := by
      rw [Storage.get_set_ne _ _ _ _ (by decide),
          Storage.get_set_ne _ _ _ _ (by decide),
          Storage.get_set_self]
    have hb2 : (st.storage.get ADMIN_KEY).isSome = false := hb
    refine ⟨?_, ?_, ?_⟩
    · simp [init, Storage.has, hb2, hget]
    · simp [init, Storage.has, hb2, hget]
    · simp [init, Storage.has, hb2, get_admin, Storage.getAddr, hget]

/-- C6 witness at a concrete state. -/
theorem init_one_shot_witness :
    (init (init ⟨⟨[]⟩, []⟩ 0).2 1).1 = Outcome.err ContractError.AlreadyInitialized ∧
    (init (init ⟨⟨[]⟩, []⟩ 0).2 1).2 = (init ⟨⟨[]⟩, []⟩ 0).2 ∧
    get_admin (init ⟨⟨[]⟩, []⟩ 0).2 = Outcome.ok (some 0) :=
  init_one_shot ⟨⟨[]⟩, []⟩ 0 1 (by decide)

/-- C7: add/remove round-trip on membership, from a freshly initialized
deployment.  After a successful `init st a`, for every identity `i`:
`is_indexer i` is `false` before `add_indexer a i`; `add_indexer a i`
succeeds, after which `is_indexer i` is `true`; a subsequent
`remove_indexer a i` succeeds, after which `is_indexer i` is `false` again. -/
theorem add_remove_indexer_roundtrip (st : State) (a i : Address)
    (h : (init st a).1 = Outcome.ok ()) :
    is_indexer (init st a).2 i = Outcome.ok false ∧
    (add_indexer (init st a).2 a i).1 = Outcome.ok () ∧
    is_indexer (add_indexer (init st a).2 a i).2 i = Outcome.ok true ∧
    (remove_indexer (add_indexer (init st a).2 a i).2 a i).1 = Outcome.ok () ∧
    is_indexer (remove_indexer (add_indexer (init st a).2 a i).2 a i).2 i
      = Outcome.ok false := by
  cases hb : st.storage.has ADMIN_KEY with
  | true => simp [init, hb] at h
  | false =>
    have hb2 : (st.storage.get ADMIN_KEY).isSome = false := hb
    have hinit : (init st a).2
        = ⟨((st.storage.set ADMIN_KEY (Val.addr a)).set INDEXERS_KEY
            (Val.idxMap [])).set COUNTER_KEY (Val.counter 0), st.events⟩ := by
      simp [init, Storage.has, hb2]
    have fA1 : (((st.storage.set ADMIN_KEY (Val.addr a)).set INDEXERS_KEY
        (Val.idxMap [])).set COUNTER_KEY (Val.counter 0)).get ADMIN_KEY
        = some (Val.addr a) := by
      rw [Storage.get_set_ne _ _ _ _ (by decide),
          Storage.get_set_ne _ _ _ _ (by decide), Storage.get_set_self]
    have fI1 : (((st.storage.set ADMIN_KEY (Val.addr a)).set INDEXERS_KEY
        (Val.idxMap [])).set COUNTER_KEY (Val.counter 0)).get INDEXERS_KEY
        = some (Val.idxMap []) := by
      rw [Storage.get_set_ne _ _ _ _ (by decide), Storage.get_set_self]
    have hadd := add_indexer_success
      ⟨((st.storage.set ADMIN_KEY (Val.addr a)).set INDEXERS_KEY
          (Val.idxMap [])).set COUNTER_KEY (Val.counter 0), st.events⟩ a i []
      (Storage.getAddr_eq _ _ _ fA1) (Storage.getIdxMap_eq _ _ _ fI1)
    have hset : alistSet ([] : List (Address × Bool)) i true = [(i, true)] := by
      simp [alistSet]
    rw [hset] at hadd
    have fA2 : ((((st.storage.set ADMIN_KEY (Val.addr a)).set INDEXERS_KEY
        (Val.idxMap [])).set COUNTER_KEY (Val.counter 0)).set INDEXERS_KEY
        (Val.idxMap [(i, true)])).get ADMIN_KEY = some (Val.addr a) := by
      rw [Storage.get_set_ne _ _ _ _ (by decide)]
      exact fA1
    have fI2 : ((((st.storage.set ADMIN_KEY (Val.addr a)).set INDEXERS_KEY
        (Val.idxMap [])).set COUNTER_KEY (Val.counter 0)).set INDEXERS_KEY
        (Val.idxMap [(i, true)])).get INDEXERS_KEY
        = some (Val.idxMap [(i, true)]) := Storage.get_set_self _ _ _
    have hrem := remove_indexer_success
      ⟨(((st.storage.set ADMIN_KEY (Val.addr a)).set INDEXERS_KEY
          (Val.idxMap [])).set COUNTER_KEY (Val.counter 0)).set INDEXERS_KEY
          (Val.idxMap [(i, true)]),
        st.events ++ [Broadcast.indexerAdd i]⟩ a i [(i, true)]
      (Storage.getAddr_eq _ _ _ fA2) (Storage.getIdxMap_eq _ _ _ fI2)
    have hremm : alistRemove [(i, true)] i = [] := by simp [alistRemove]
    rw [hremm] at hrem
    have fI3 : (((((st.storage.set ADMIN_KEY (Val.addr a)).set INDEXERS_KEY
        (Val.idxMap [])).set COUNTER_KEY (Val.counter 0)).set INDEXERS_KEY
        (Val.idxMap [(i, true)])).set INDEXERS_KEY (Val.idxMap [])).get
        INDEXERS_KEY = some (Val.idxMap []) := Storage.get_set_self _ _ _
    rw [hinit]
    refine ⟨?_, ?_, ?_, ?_, ?_⟩
    · rw [is_indexer_eq _ _ [] (Storage.getIdxMap_eq _ _ _ fI1)]
      simp [alistGet]
    · rw [hadd]
    · simp only [hadd]
      rw [is_indexer_eq _ _ [(i, true)] (Storage.getIdxMap_eq _ _ _ fI2)]
      simp [alistGet]
    · simp only [hadd]
      rw [hrem]
    · simp only [hadd, hrem]
      rw [is_indexer_eq _ _ [] (Storage.getIdxMap_eq _ _ _ fI3)]
      simp [alistGet]

/-- C7 witness at a concrete state. -/
theorem add_remove_indexer_roundtrip_witness :
    is_indexer (init ⟨⟨[]⟩, []⟩ 0).2 1 = Outcome.ok false ∧
    (add_indexer (init ⟨⟨[]⟩, []⟩ 0).2 0 1).1 = Outcome.ok () ∧
    is_indexer (add_indexer (init ⟨⟨[]⟩, []⟩ 0).2 0 1).2 1 = Outcome.ok true ∧
    (remove_indexer (add_indexer (init ⟨⟨[]⟩, []⟩ 0).2 0 1).2 0 1).1
      = Outcome.ok () ∧
    is_indexer (remove_indexer (add_indexer (init ⟨⟨[]⟩, []⟩ 0).2 0 1).2 0 1).2 1
      = Outcome.ok false :=
  add_remove_indexer_roundtrip ⟨⟨[]⟩, []⟩ 0 1 (by decide)

/-- C8: saturating counter arithmetic.  On the success path, the value written
to the counter slot and returned is the saturating increment of the previous
counter value: exactly one more when below the `u64` maximum, unchanged at the
maximum (never wrapping to 0); when the event category does not collide with
the counter key, that value is what `total_events` subsequently reports. -/
theorem record_event_saturating_increment
    (st : State) (indexer contract_id : Address) (event_type : Symbol)
    (payload_hash : PayloadHash) (ledger timestamp : Nat)
    (m : List (Address × Bool)) (stored : Option Nat)
    (hmap : st.storage.getIdxMap INDEXERS_KEY = some (some m))
    (hmem : (alistGet m indexer).getD false = true)
    (hcount : st.storage.getCounter COUNTER_KEY = some stored) :
    ((record_event st indexer contract_id event_type payload_hash ledger
        timestamp).1 = Outcome.ok (saturatingAdd1 (stored.getD 0))) ∧
    (stored.getD 0 < U64_MAX →
      saturatingAdd1 (stored.getD 0) = stored.getD 0 + 1) ∧
    (stored.getD 0 = U64_MAX → saturatingAdd1 (stored.getD 0) = U64_MAX) ∧
    0 < saturatingAdd1 (stored.getD 0) ∧
    (event_type ≠ COUNTER_KEY →
      total_events (record_event st indexer contract_id event_type payload_hash
        ledger timestamp).2 = Outcome.ok (saturatingAdd1 (stored.getD 0))) := by
  refine ⟨?_, ?_, ?_, ?_, ?_⟩
  · simp [record_event, hmap, hmem, hcount]
  · intro hlt
    simp [saturatingAdd1, hlt]
  · intro heq
    simp [saturatingAdd1, heq]
  · simp only [saturatingAdd1]
    split
    · simp
    · decide
  · intro hne
    have hrec : (record_event st indexer contract_id event_type payload_hash
        ledger timestamp).2
        = ⟨(st.storage.set COUNTER_KEY
              (Val.counter (saturatingAdd1 (stored.getD 0)))).set event_type
              (Val.record ⟨contract_id, event_type, payload_hash, ledger,
                timestamp⟩),
           st.events ++ [Broadcast.soroscanEvent event_type
             ⟨contract_id, event_type, payload_hash, ledger, timestamp⟩]⟩ := by
      simp [record_event, hmap, hmem, hcount]
    have hget : (((st.storage.set COUNTER_KEY
        (Val.counter (saturatingAdd1 (stored.getD 0)))).set event_type
        (Val.record ⟨contract_id, event_type, payload_hash, ledger,
          timestamp⟩))).getCounter COUNTER_KEY
        = some (some (saturatingAdd1 (stored.getD 0))) := by
      refine Storage.getCounter_eq _ _ _ ?_
      rw [Storage.get_set_ne _ _ _ _ hne, Storage.get_set_self]
    rw [hrec]
    simp [total_events, hget]

/-- C8 witness at a concrete state whose counter already holds the `u64`
maximum. -/
theorem record_event_saturating_increment_witness :
    (record_event ⟨⟨[(ADMIN_KEY, Val.addr 0), (INDEXERS_KEY, Val.idxMap [(1, true)]),
        (COUNTER_KEY, Val.counter U64_MAX)]⟩, []⟩ 1 2 "swap" 9 5 7).1
      = Outcome.ok (saturatingAdd1 ((some U64_MAX).getD 0)) :=
  (record_event_saturating_increment _ 1 2 "swap" 9 5 7 [(1, true)]
    (some U64_MAX) (by decide) (by decide) (by decide)).1

/-- C9: remove-non-member quirk.  For every identity `i` with no entry in the
indexer map, `remove_indexer` called by the stored admin succeeds, leaves the
storage (including the membership map) exactly unchanged, and still publishes
the indexer-removed broadcast carrying `i`. -/
theorem remove_indexer_nonmember_quirk
    (st : State) (a i : Address) (m : List (Address × Bool))
    (hadmin : st.storage.getAddr ADMIN_KEY = some (some a))
    (hmap : st.storage.getIdxMap INDEXERS_KEY = some (some m))
    (hmem : alistGet m i = none) :
    remove_indexer st a i
      = (Outcome.ok (), ⟨st.storage, st.events ++ [Broadcast.indexerRem i]⟩) := by
  have h1 : alistRemove m i = m := alistRemove_eq_of_get_none m i hmem
  have h2 : st.storage.set INDEXERS_KEY (Val.idxMap m) = st.storage :=
    Storage.set_eq_of_get_some _ _ _ (Storage.get_of_getIdxMap _ _ _ hmap)
  simp [remove_indexer, hadmin, hmap, h1, h2]

/-- C9 witness at a concrete state. -/
theorem remove_indexer_nonmember_quirk_witness :
    remove_indexer ⟨⟨[(ADMIN_KEY, Val.addr 0), (INDEXERS_KEY, Val.idxMap [(1, true)]),
        (COUNTER_KEY, Val.counter 0)]⟩, []⟩ 0 5
      = (Outcome.ok (),
         ⟨⟨[(ADMIN_KEY, Val.addr 0), (INDEXERS_KEY, Val.idxMap [(1, true)]),
            (COUNTER_KEY, Val.counter 0)]⟩, [Broadcast.indexerRem 5]⟩) :=
  remove_indexer_nonmember_quirk _ 0 5 [(1, true)] (by decide) (by decide)
    (by decide)

/-- C10: frame condition of a successful `record_event` whose category differs
from the three reserved storage keys: the call returns the new count, the
admin slot and the indexer-map slot and every other key are unchanged, the
category slot now holds exactly the constructed record, and the counter slot
holds the saturating increment. -/
theorem record_event_frame_condition
    (st : State) (indexer contract_id : Address) (event_type : Symbol)
    (payload_hash : PayloadHash) (ledger timestamp : Nat)
    (m : List (Address × Bool)) (stored : Option Nat)
    (hmap : st.storage.getIdxMap INDEXERS_KEY = some (some m))
    (hmem : (alistGet m indexer).getD false = true)
    (hcount : st.storage.getCounter COUNTER_KEY = some stored)
    (hA : event_type ≠ ADMIN_KEY) (hI : event_type ≠ INDEXERS_KEY)
    (hC : event_type ≠ COUNTER_KEY) :
    (record_event st indexer contract_id event_type payload_hash ledger
        timestamp).1 = Outcome.ok (saturatingAdd1 (stored.getD 0)) ∧
    (record_event st indexer contract_id event_type payload_hash ledger
        timestamp).2.storage.get ADMIN_KEY = st.storage.get ADMIN_KEY ∧
    (record_event st indexer contract_id event_type payload_hash ledger
        timestamp).2.storage.get INDEXERS_KEY = st.storage.get INDEXERS_KEY ∧
    (∀ k : Symbol, k ≠ event_type → k ≠ COUNTER_KEY →
      (record_event st indexer contract_id event_type payload_hash ledger
        timestamp).2.storage.get k = st.storage.get k) ∧
    (record_event st indexer contract_id event_type payload_hash ledger
        timestamp).2.storage.get event_type
      = some (Val.record
          ⟨contract_id, event_type, payload_hash, ledger, timestamp⟩) ∧
    (record_event st indexer contract_id event_type payload_hash ledger
        timestamp).2.storage.get COUNTER_KEY
      = some (Val.counter (saturatingAdd1 (stored.getD 0))) := by
  have hrec : record_event st indexer contract_id event_type payload_hash
      ledger timestamp
      = (Outcome.ok (saturatingAdd1 (stored.getD 0)),
         ⟨(st.storage.set COUNTER_KEY
             (Val.counter (saturatingAdd1 (stored.getD 0)))).set event_type
             (Val.record ⟨contract_id, event_type, payload_hash, ledger,
               timestamp⟩),
          st.events ++ [Broadcast.soroscanEvent event_type
            ⟨contract_id, event_type, payload_hash, ledger, timestamp⟩]⟩) := by
    simp [record_event, hmap, hmem, hcount]
  refine ⟨?_, ?_, ?_, ?_, ?_, ?_⟩
  · simp only [hrec]
  · simp only [hrec]
    rw [Storage.get_set_ne _ _ _ _ hA, Storage.get_set_ne _ _ _ _ (by decide)]
  · simp only [hrec]
    rw [Storage.get_set_ne _ _ _ _ hI, Storage.get_set_ne _ _ _ _ (by decide)]
  · intro k h1 h2
    simp only [hrec]
    rw [Storage.get_set_ne _ _ _ _ (Ne.symm h1),
        Storage.get_set_ne _ _ _ _ (Ne.symm h2)]
  · simp only [hrec]
    rw [Storage.get_set_self]
  · simp only [hrec]
    rw [Storage.get_set_ne _ _ _ _ hC, Storage.get_set_self]

/-- C10 witness at a concrete state with the non-reserved category `swap`. -/
theorem record_event_frame_condition_witness :
    (record_event ⟨⟨[(ADMIN_KEY, Val.addr 0), (INDEXERS_KEY, Val.idxMap [(1, true)]),
        (COUNTER_KEY, Val.counter 0)]⟩, []⟩ 1 2 "swap" 9 5 7).1
      = Outcome.ok (saturatingAdd1 ((some 0 : Option Nat).getD 0)) ∧
    (record_event ⟨⟨[(ADMIN_KEY, Val.addr 0), (INDEXERS_KEY, Val.idxMap [(1, true)]),
        (COUNTER_KEY, Val.counter 0)]⟩, []⟩ 1 2 "swap" 9 5 7).2.storage.get
        ADMIN_KEY
      = (⟨⟨[(ADMIN_KEY, Val.addr 0), (INDEXERS_KEY, Val.idxMap [(1, true)]),
          (COUNTER_KEY, Val.counter 0)]⟩, []⟩ : State).storage.get ADMIN_KEY :=
  ⟨(record_event_frame_condition _ 1 2 "swap" 9 5 7 [(1, true)] (some 0)
      (by decide) (by decide) (by decide) (by decide) (by decide) (by decide)).1,
   (record_event_frame_condition _ 1 2 "swap" 9 5 7 [(1, true)] (some 0)
      (by decide) (by decide) (by decide) (by decide) (by decide) (by decide)).2.1⟩

/-- C1 is violated by the code: the admin slot is not immutable.  From a fresh
deployment, `init 0` succeeds, the admin adds indexer `1`, and a successful
`record_event` with the caller-chosen category `admin` overwrites the
`ADMIN_KEY` slot with the `EventRecord` (the category-keyed slot and the admin
slot share the key `admin` in the one flat instance key space).  Afterwards
`get_admin` traps on the type conversion instead of returning admin `0`. -/
theorem admin_slot_clobbered_by_record_event :
    (init ⟨⟨[]⟩, []⟩ 0).1 = Outcome.ok () ∧
    (add_indexer (init ⟨⟨[]⟩, []⟩ 0).2 0 1).1 = Outcome.ok () ∧
    (record_event (add_indexer (init ⟨⟨[]⟩, []⟩ 0).2 0 1).2 1 2 "admin" 9 5 7).1
      = Outcome.ok 1 ∧
    (record_event (add_indexer (init ⟨⟨[]⟩, []⟩ 0).2 0 1).2 1 2 "admin" 9 5 7).2.storage.get
        ADMIN_KEY
      = some (Val.record ⟨2, "admin", 9, 5, 7⟩) ∧
    get_admin (record_event (add_indexer (init ⟨⟨[]⟩, []⟩ 0).2 0 1).2 1 2
        "admin" 9 5 7).2 = Outcome.trap := by
  decide

/-- C2 is violated by the code: for the reserved category `count` (likewise
`admin` and `idxrs`), `latest_by_type` on an initialized deployment that has
never recorded such an event traps on the type conversion (the slot holds the
`u64` counter) instead of returning absent; a non-reserved never-used category
such as `swap` does return absent. -/
theorem latest_by_type_reserved_key_trap :
    (init ⟨⟨[]⟩, []⟩ 0).1 = Outcome.ok () ∧
    latest_by_type (init ⟨⟨[]⟩, []⟩ 0).2 "count" = Outcome.trap ∧
    latest_by_type (init ⟨⟨[]⟩, []⟩ 0).2 "admin" = Outcome.trap ∧
    latest_by_type (init ⟨⟨[]⟩, []⟩ 0).2 "swap" = Outcome.ok none := by
  decide

/-- C3 is violated by the code: from a fresh deployment with one successful
`record_event` (N = 1) by an authorized indexer, when the recorded category is
the reserved key `count`, the record overwrites the counter slot, so
`total_events` traps on the type conversion instead of returning 1. -/
theorem total_events_trap_after_count_category :
    (init ⟨⟨[]⟩, []⟩ 0).1 = Outcome.ok () ∧
    (add_indexer (init ⟨⟨[]⟩, []⟩ 0).2 0 1).1 = Outcome.ok () ∧
    (record_event (add_indexer (init ⟨⟨[]⟩, []⟩ 0).2 0 1).2 1 2 "count" 9 5 7).1
      = Outcome.ok 1 ∧
    total_events (record_event (add_indexer (init ⟨⟨[]⟩, []⟩ 0).2 0 1).2 1 2
        "count" 9 5 7).2 = Outcome.trap := by
  decide

end SoroScan
